import Mathlib

/-!
Verification of the School Community Hub domain model.

The repository is a Streamlit front-end over a Supabase REST store.  We give
a shallow embedding of the Domain Access Layer (`database_manager.py`), the
authentication manager (`auth_manager.py`) and the relevant view logic
(`admin_panel_page.py`, `directory_page.py`, `detail_page.py`, `app.py`).

The external store is modelled as an in-memory database `DB` holding the four
collections (`users`, `organizations`, `memberships`, `events`).  Supabase
query chains are translated step by step: `.eq` filters become `List.filter`,
`.order` becomes a stable insertion sort, `.single()` becomes a match that
yields `none` unless exactly one row is returned (the client raises on zero
or several rows, and every access-layer function catches that exception and
returns `None`/`False`).  Transport failures are modelled, where a claim
needs them, by an explicit `store_error : Bool` parameter: a `try/except`
body that is reached with a raised exception returns the `except` branch's
value.
-/

namespace Hub

/-! ### Character-level string operations

Python string operations (`str.lower`, the `in` substring test, `<`
comparison used by the store's `order`) are modelled on `List Char`, the
code-point sequence of a Lean `String`, so that everything reduces in the
kernel. -/

/-- Python `str.lower()` on a code-point sequence. -/
def lowerChars (l : List Char) : List Char := l.map Char.toLower

/-- Code-point lexicographic `<` on strings, as used by the store when
ordering a text column. -/
def strLtB : List Char → List Char → Bool
  | [], [] => false
  | [], _ :: _ => true
  | _ :: _, [] => false
  | a :: as, b :: bs =>
      if a.toNat < b.toNat then true
      else if b.toNat < a.toNat then false
      else strLtB as bs

/-- Code-point lexicographic `≤` on strings. -/
def strLeB (s t : List Char) : Bool := !(strLtB t s)

/-- Does the second sequence start with the first? -/
def startsWithChars : List Char → List Char → Bool
  | [], _ => true
  | _ :: _, [] => false
  | a :: as, b :: bs => a == b && startsWithChars as bs

/-- Python's substring test `needle in hay`. -/
def occursIn (needle : List Char) : List Char → Bool
  | [] => needle.isEmpty
  | c :: t => startsWithChars needle (c :: t) || occursIn needle t

/-- A row of the `public.users` table. -/
structure UserRow where
  id : String
  email : String
  full_name : String
  grad_year : Option Int
  role : String
  deriving Repr, DecidableEq

/-- A row of the `public.organizations` table. -/
structure OrgRow where
  id : String
  name : String
  description : String
  category : String
  advisor_name : String
  meeting_info : String
  logo_url : Option String
  is_verified : Bool
  deriving Repr, DecidableEq

/-- A row of the `public.memberships` table. -/
structure MembershipRow where
  user_id : String
  organization_id : String
  role : String
  deriving Repr, DecidableEq

/-- A row of the `public.events` table. -/
structure EventRow where
  id : String
  title : String
  description : String
  start_time : Nat
  end_time : Option Nat
  location : String
  organization_id : String
  is_public : Bool
  deriving Repr, DecidableEq

/-- The external store: the four collections addressed by the REST API. -/
structure DB where
  users : List UserRow
  organizations : List OrgRow
  memberships : List MembershipRow
  events : List EventRow
  deriving Repr, DecidableEq

/-! ### DatabaseManager: user profile functions -/

/-- `DatabaseManager.get_user_profile`: `select * from users where id = user_id`
with `.single()`; the client raises unless exactly one row matches, and the
`except` branch returns `None`. -/
def get_user_profile (db : DB) (user_id : String) : Option UserRow :=
  match db.users.filter (fun u => u.id == user_id) with
  | [u] => some u
  | _ => none

/-- `DatabaseManager.create_user_profile`: checks for an existing profile
first and returns `True` without inserting when one exists; otherwise inserts
the new row (a duplicate-key rejection by the store would raise and be caught,
returning `False`). -/
def create_user_profile (db : DB) (user_id email full_name : String)
    (grad_year : Int) (role : String) : DB × Bool :=
  match get_user_profile db user_id with
  | some _ => (db, true)
  | none =>
      if db.users.any (fun u => u.id == user_id) then
        (db, false)
      else
        ({ db with users := db.users ++
            [{ id := user_id, email := email, full_name := full_name,
               grad_year := some grad_year, role := role }] }, true)

/-- `DatabaseManager.update_user_role`: `update users set role = new_role
where id = user_id`; the returned data is the list of updated rows, so the
boolean result is whether any row matched. -/
def update_user_role (db : DB) (user_id new_role : String) : DB × Bool :=
  let updated := db.users.map
    (fun u => if u.id == user_id then { u with role := new_role } else u)
  ({ db with users := updated }, db.users.any (fun u => u.id == user_id))

/-! ### DatabaseManager: membership functions -/

/-- `DatabaseManager.get_user_org_membership_status`: `select * from
memberships where user_id = _ and organization_id = _` with `.single()`;
returns `None` unless exactly one row matches (zero or several rows raise in
the client and the exception handler returns `None`). -/
def get_user_org_membership_status (db : DB) (user_id org_id : String) :
    Option MembershipRow :=
  match db.memberships.filter
      (fun m => m.user_id == user_id && m.organization_id == org_id) with
  | [m] => some m
  | _ => none

/-- `DatabaseManager.join_organization`: returns `False` when
`get_user_org_membership_status` finds an existing membership, otherwise
inserts `{user_id, organization_id, role}`. -/
def join_organization (db : DB) (user_id org_id : String)
    (role : String := "member") : DB × Bool :=
  match get_user_org_membership_status db user_id org_id with
  | some _ => (db, false)
  | none =>
      ({ db with memberships := db.memberships ++
          [{ user_id := user_id, organization_id := org_id, role := role }] },
       true)

/-- The number of membership rows stored for a given (user, org) pair. -/
def membershipCount (db : DB) (user_id org_id : String) : Nat :=
  (db.memberships.filter
    (fun m => m.user_id == user_id && m.organization_id == org_id)).length

/-- One flattened row of the roster returned by `get_memberships_for_org`:
the membership role joined with the user identity fields, all at top level. -/
structure RosterRow where
  membership_role : String
  user_id : String
  full_name : String
  email : String
  grad_year : Option Int
  deriving Repr, DecidableEq

/-- The ordering used by `get_memberships_for_org`'s
`.order("role", desc=True)`: descending code-point order on the role text. -/
def roleDesc (a b : MembershipRow) : Prop := strLeB b.role.data a.role.data = true

instance : DecidableRel roleDesc := fun _ _ => Bool.decEq _ _

/-- `DatabaseManager.get_memberships_for_org`: select the membership rows of
the organization joined (inner) with their users via
`users!inner(id, full_name, email, grad_year)`, ordered by
`.order("role", desc=True)`, then flattened; the `if user_info:` guard skips
a row whose joined user is absent. -/
def get_memberships_for_org (db : DB) (org_id : String) : List RosterRow :=
  let rows := db.memberships.filter (fun m => m.organization_id == org_id)
  (List.insertionSort roleDesc rows).filterMap (fun m =>
    (db.users.find? (fun u => u.id == m.user_id)).map (fun u =>
      { membership_role := m.role, user_id := u.id, full_name := u.full_name,
        email := u.email, grad_year := u.grad_year }))

/-! ### DatabaseManager: event functions -/

/-- A flattened event row as returned by `get_all_events`: the event fields
plus the host organization's name and category pulled up to the top level
(absent when the `organizations(name, category)` embedding found no row). -/
structure EventOut where
  id : String
  title : String
  description : String
  start_time : Nat
  end_time : Option Nat
  location : String
  organization_id : String
  is_public : Bool
  organization_name : Option String
  organization_category : Option String
  deriving Repr, DecidableEq

/-- The ordering used by `get_all_events`'s
`.order("start_time", desc=False)`. -/
def eventLe (a b : EventRow) : Prop := a.start_time ≤ b.start_time

instance : DecidableRel eventLe := fun a b => Nat.decLe a.start_time b.start_time

instance : IsTotal EventRow eventLe := ⟨fun a b => Nat.le_total a.start_time b.start_time⟩

instance : IsTrans EventRow eventLe := ⟨fun _ _ _ => Nat.le_trans⟩

/-- The flattening step of `get_all_events`: pull the embedded organization's
name and category to the top level and drop the nested record. -/
def flattenEvent (db : DB) (e : EventRow) : EventOut :=
  match db.organizations.find? (fun o => o.id == e.organization_id) with
  | some o =>
      { id := e.id, title := e.title, description := e.description,
        start_time := e.start_time, end_time := e.end_time,
        location := e.location, organization_id := e.organization_id,
        is_public := e.is_public,
        organization_name := some o.name, organization_category := some o.category }
  | none =>
      { id := e.id, title := e.title, description := e.description,
        start_time := e.start_time, end_time := e.end_time,
        location := e.location, organization_id := e.organization_id,
        is_public := e.is_public,
        organization_name := none, organization_category := none }

/-- `DatabaseManager.get_all_events`: select all events with the organization
embedding, add `.eq("is_public", True)` unless `include_private`, order by
`start_time` ascending, then flatten each row. -/
def get_all_events (db : DB) (include_private : Bool := false) : List EventOut :=
  let rows := if include_private then db.events
              else db.events.filter (fun e => e.is_public)
  (List.insertionSort eventLe rows).map (flattenEvent db)

/-! ### DatabaseManager: delete_organization (absent from the sources)

`view_edit_organizations_section` calls `db_manager.delete_organization`, but
the provided `database_manager.py` only remarks (line 124) that such a
function "can stay if you use them" — its body is not in the sources. -/

/-- Modelled from the spec: `DatabaseManager.delete_organization` is missing
from the provided sources (only its caller in the admin view appears).  The
spec's contract row reads "deleteOrganization(id) | id | success flag | fails
silently to false on error (must be surfaced to caller as boolean, never
throw past this layer)".  A transport/constraint failure of the underlying
store call is modelled by `store_error`; the `except` branch returns
`False`. -/
def delete_organization (db : DB) (store_error : Bool) (org_id : String) :
    DB × Bool :=
  if store_error then (db, false)
  else
    ({ db with organizations :=
        db.organizations.filter (fun o => !(o.id == org_id)) },
     !(db.organizations.filter (fun o => o.id == org_id)).isEmpty)

/-! ### Admin panel view (`admin_panel_page.py`) -/

/-- The confirm-delete click handler of `view_edit_organizations_section`
(lines 175-183): calls `delete_organization` and branches on its boolean
result, rendering either the success or the failure message — it checks a
flag, it never handles an exception. -/
def confirm_delete_click (db : DB) (store_error : Bool)
    (org_id org_name : String) : DB × String :=
  let res := delete_organization db store_error org_id
  if res.2 then
    (res.1, "Organization " ++ org_name ++ " deleted successfully!")
  else
    (res.1, "Failed to delete organization " ++ org_name ++ ".")

/-- The admin-panel gate of `show_admin_panel_page` (line 206):
access is denied unless `current_user_role != "admin"` is false.
`AuthManager.get_user_role` returns `None` when no user is logged in. -/
def canAccessAdminPanel (current_user_role : Option String) : Bool :=
  current_user_role == some "admin"

/-- Outcome of submitting the role-change form of `show_admin_panel_page`. -/
structure RoleChangeOutcome where
  db : DB
  denied : Bool
  db_update_issued : Bool
  update_ok : Bool
  deriving Repr, DecidableEq

/-- The role-change submission logic of `show_admin_panel_page`
(lines 259-268): denied (with no database call) when the selected user is
the acting admin and the new role is not `"admin"`; otherwise forwarded to
`update_user_role`. -/
def handle_update_role (db : DB) (current_user_id user_to_change_id new_role : String) :
    RoleChangeOutcome :=
  if user_to_change_id == current_user_id && new_role != "admin" then
    { db := db, denied := true, db_update_issued := false, update_ok := false }
  else
    let res := update_user_role db user_to_change_id new_role
    { db := res.1, denied := false, db_update_issued := true, update_ok := res.2 }

/-- The fixed category list of the admin organization forms. -/
def org_categories : List String :=
  ["Academic", "Athletics", "Arts & Culture", "Community Service",
   "STEM", "Student Government", "Other"]

/-- The category dropdown index of the admin edit form (line 121):
`org_categories.index(cat) if cat in org_categories else 0`. -/
def edit_category_index (stored_category : String) : Nat :=
  if org_categories.contains stored_category then
    org_categories.indexOf stored_category
  else 0

/-! ### Detail page view (`detail_page.py`) -/

/-- The edit-affordance gate of `show_group_detail` (line 64):
`user_role in ["admin", "faculty", "club_leader"]`, where `user_role` is
`None` when no user is logged in. -/
def is_admin_or_leader (user_role : Option String) : Bool :=
  ["admin", "faculty", "club_leader"].any (fun s => user_role == some s)

/-! ### Directory view (`directory_page.py`) -/

/-- The client-side filter of `show_directory` (lines 46-56): the search
query is lowercased at input, and an organization is kept when the selected
category is `"All"` or equals its category, and the query occurs in the
lowercased name. -/
def directory_filter (org_data : List OrgRow) (raw_query selected_category : String) :
    List OrgRow :=
  let search_query := lowerChars raw_query.data
  org_data.filter (fun org =>
    (selected_category == "All" || org.category == selected_category)
    && occursIn search_query (lowerChars org.name.data))

/-- The organization card rendered by `show_directory` (lines 70-93): the
fields of the card as displayed, a total function of the row. -/
structure Card where
  title : String
  category_caption : String
  verified_badge : Bool
  description_snippet : List Char
  deriving Repr, DecidableEq

/-- Rendering one directory card (lines 70-93): total in the organization
row; an out-of-enum category is displayed as-is in the caption. -/
def render_card (org : OrgRow) : Card :=
  { title := org.name,
    category_caption := "Category: **" ++ org.category ++ "**",
    verified_badge := org.is_verified,
    description_snippet := org.description.data.take 100 }

/-! ### Authentication (`auth_manager.py`) and the sign-up form (`app.py`) -/

/-- `AuthManager.sign_up`: the external auth call either yields a fresh user
id (`some uid`) or fails (`none`, surfaced as an error message and `False`).
On success the profile row is inserted with the given `role`, whose default
is `"student"`; a rejected insert (e.g. duplicate id) is caught and returns
`False`. -/
def sign_up (db : DB) (auth_user_id : Option String)
    (email _password full_name : String) (grad_year : Int)
    (role : String := "student") : DB × Bool :=
  match auth_user_id with
  | none => (db, false)
  | some uid =>
      if db.users.any (fun u => u.id == uid) then (db, false)
      else
        ({ db with users := db.users ++
            [{ id := uid, email := email, full_name := full_name,
               grad_year := some grad_year, role := role }] }, true)

/-- The sign-up form handler of `app.py` (lines 97-108): validates the
fields (Python truthiness: empty strings fail), checks password confirmation,
then calls `auth.sign_up(new_email, new_password, full_name, grad_year)` —
with no role argument, so the default applies. -/
def signup_form_handler (db : DB) (auth_user_id : Option String)
    (new_email new_password confirm_password full_name : String)
    (grad_year : Int) : DB × Bool :=
  if new_email == "" || new_password == "" || confirm_password == ""
      || full_name == "" then
    (db, false)
  else if new_password != confirm_password then
    (db, false)
  else
    sign_up db auth_user_id new_email new_password full_name grad_year

/-! ### Concrete fixtures used in evaluations and witnesses -/

/-- A user who leads the chess club in the fixtures. -/
def uLead : UserRow :=
  { id := "u1", email := "lead@school.test", full_name := "Lea Der",
    grad_year := some 2026, role := "student" }

/-- A user who is a plain member in the fixtures. -/
def uMem : UserRow :=
  { id := "u2", email := "mem@school.test", full_name := "Mem Ber",
    grad_year := some 2027, role := "student" }

/-- The first organization of the directory fixture. -/
def orgA : OrgRow :=
  { id := "o1", name := "Chess Club", description := "We play chess.",
    category := "Academic", advisor_name := "Ms. Knight", meeting_info := "Tuesdays",
    logo_url := none, is_verified := true }

/-- The second organization of the directory fixture. -/
def orgB : OrgRow :=
  { id := "o2", name := "Chess Masters", description := "Advanced chess.",
    category := "STEM", advisor_name := "Mr. Rook", meeting_info := "Fridays",
    logo_url := none, is_verified := false }

/-- An organization whose stored category is outside the fixed enum. -/
def orgWeird : OrgRow :=
  { id := "o9", name := "Mystery Society", description := "Nobody knows.",
    category := "Bogus", advisor_name := "Dr. X", meeting_info := "",
    logo_url := none, is_verified := false }

/-- A database whose chess club has one leader and one member. -/
def rosterDB : DB :=
  { users := [uLead, uMem], organizations := [orgA],
    memberships :=
      [ { user_id := "u1", organization_id := "o1", role := "leader" },
        { user_id := "u2", organization_id := "o1", role := "member" } ],
    events := [] }

/-- A database holding one user with one existing membership. -/
def pairDB : DB :=
  { users := [uLead], organizations := [orgA],
    memberships := [ { user_id := "u1", organization_id := "o1", role := "member" } ],
    events := [] }

/-- A public event with the earliest start time. -/
def ev1 : EventRow :=
  { id := "e1", title := "Open Meet", description := "All welcome.",
    start_time := 10, end_time := none, location := "Gym",
    organization_id := "o1", is_public := true }

/-- A private event between the two public ones. -/
def ev2 : EventRow :=
  { id := "e2", title := "Board Meeting", description := "Members only.",
    start_time := 20, end_time := some 21, location := "Room 101",
    organization_id := "o1", is_public := false }

/-- A public event with the latest start time. -/
def ev3 : EventRow :=
  { id := "e3", title := "Tournament", description := "Open play.",
    start_time := 30, end_time := some 33, location := "Hall",
    organization_id := "o1", is_public := true }

/-- A database holding events with `is_public` = {true, false, true}, stored
out of start-time order. -/
def eventsDB : DB :=
  { users := [], organizations := [orgA], memberships := [],
    events := [ev2, ev3, ev1] }

/-! ### Helper lemmas about the membership operations -/

lemma get_status_eq_none_of_count_zero {db : DB} {u o : String}
    (h : membershipCount db u o = 0) :
    get_user_org_membership_status db u o = none := by
  unfold membershipCount at h
  unfold get_user_org_membership_status
  rw [List.length_eq_zero.mp h]

lemma get_status_of_count_one {db : DB} {u o : String}
    (h : membershipCount db u o = 1) :
    ∃ m, get_user_org_membership_status db u o = some m := by
  unfold membershipCount at h
  obtain ⟨m, hm⟩ := List.length_eq_one.mp h
  refine ⟨m, ?_⟩
  unfold get_user_org_membership_status
  rw [hm]

lemma join_of_existing {db : DB} {u o : String} (role : String)
    (h : membershipCount db u o = 1) :
    join_organization db u o role = (db, false) := by
  obtain ⟨m, hm⟩ := get_status_of_count_one h
  unfold join_organization
  rw [hm]

lemma join_of_absent {db : DB} {u o : String} (role : String)
    (h : membershipCount db u o = 0) :
    join_organization db u o role =
      ({ db with memberships := db.memberships ++
          [{ user_id := u, organization_id := o, role := role }] }, true) := by
  unfold join_organization
  rw [get_status_eq_none_of_count_zero h]

lemma count_insert_self (db : DB) (u o role : String) :
    membershipCount
      { db with memberships := db.memberships ++
          [{ user_id := u, organization_id := o, role := role }] } u o
      = membershipCount db u o + 1 := by
  unfold membershipCount
  simp [List.filter_append]

/-! ### Claim theorems -/

/-- C1: for every organization id, the delete-organization operation returns
a boolean success flag — `false` when the underlying store call fails — and
the admin view's confirm-delete handler consumes only that flag, rendering a
message in either case, so no exception crosses the Domain Access Layer into
the view (every path here is a total function into `DB × Bool`). -/
theorem C1_delete_organization_boolean_contract (db : DB) (org_id org_name : String) :
    delete_organization db true org_id = (db, false) ∧
    (delete_organization db false org_id).1.organizations
      = db.organizations.filter (fun o => !(o.id == org_id)) ∧
    confirm_delete_click db true org_id org_name
      = (db, "Failed to delete organization " ++ org_name ++ ".") ∧
    confirm_delete_click db false org_id org_name
      = ((delete_organization db false org_id).1,
         if (delete_organization db false org_id).2 then
           "Organization " ++ org_name ++ " deleted successfully!"
         else "Failed to delete organization " ++ org_name ++ ".") := by
  refine ⟨rfl, rfl, rfl, ?_⟩
  unfold confirm_delete_click
  split <;> simp_all

/-- C3: when the membership invariant (at most one row per pair) holds,
joining an organization the user already belongs to returns `false` without
inserting, and calling join twice in sequence leaves exactly one membership
row for the pair, the second call returning `false`. -/
theorem C3_join_organization_idempotent (db : DB) (u o r1 r2 : String)
    (hinv : membershipCount db u o ≤ 1) :
    (membershipCount db u o = 1 → join_organization db u o r1 = (db, false)) ∧
    membershipCount (join_organization db u o r1).1 u o = 1 ∧
    (join_organization (join_organization db u o r1).1 u o r2).2 = false ∧
    membershipCount
      (join_organization (join_organization db u o r1).1 u o r2).1 u o = 1 := by
  have hcases : membershipCount db u o = 0 ∨ membershipCount db u o = 1 := by omega
  refine ⟨fun h1 => join_of_existing r1 h1, ?_⟩
  rcases hcases with h0 | h1
  · rw [join_of_absent r1 h0]
    have hc1 : membershipCount
        { db with memberships := db.memberships ++
            [{ user_id := u, organization_id := o, role := r1 }] } u o = 1 := by
      rw [count_insert_self, h0]
    refine ⟨hc1, ?_, ?_⟩
    · rw [join_of_existing r2 hc1]
    · rw [join_of_existing r2 hc1]; exact hc1
  · rw [join_of_existing r1 h1]
    refine ⟨h1, ?_, ?_⟩
    · rw [join_of_existing r2 h1]
    · rw [join_of_existing r2 h1]; exact h1

/-- Witness for C3 at a concrete database holding one membership for the
pair ("u1", "o1"). -/
theorem C3_join_organization_idempotent_witness :
    membershipCount pairDB "u1" "o1" ≤ 1 ∧
    ((membershipCount pairDB "u1" "o1" = 1 →
        join_organization pairDB "u1" "o1" "member" = (pairDB, false)) ∧
     membershipCount (join_organization pairDB "u1" "o1" "member").1 "u1" "o1" = 1 ∧
     (join_organization (join_organization pairDB "u1" "o1" "member").1
        "u1" "o1" "member").2 = false ∧
     membershipCount
       (join_organization (join_organization pairDB "u1" "o1" "member").1
          "u1" "o1" "member").1 "u1" "o1" = 1) :=
  ⟨by decide,
   C3_join_organization_idempotent pairDB "u1" "o1" "member" "member" (by decide)⟩

/-- C9: when a profile row for the user id already exists,
`create_user_profile` returns `true` and inserts nothing, leaving the
database unchanged — while `join_organization`, on a pre-existing membership
record, returns `false` (the opposite convention). -/
theorem C9_create_user_profile_existing_success (db : DB)
    (user_id email full_name : String) (grad_year : Int) (role : String)
    (h : (db.users.filter (fun u => u.id == user_id)).length = 1) :
    create_user_profile db user_id email full_name grad_year role = (db, true) ∧
    ∀ org_id r, membershipCount db user_id org_id = 1 →
      join_organization db user_id org_id r = (db, false) := by
  constructor
  · obtain ⟨u, hu⟩ := List.length_eq_one.mp h
    unfold create_user_profile get_user_profile
    rw [hu]
  · exact fun org_id r h1 => join_of_existing r h1

/-- Witness for C9 at a concrete database holding the profile "u1" and a
membership of "u1" in "o1". -/
theorem C9_create_user_profile_existing_success_witness :
    (pairDB.users.filter (fun u => u.id == "u1")).length = 1 ∧
    (create_user_profile pairDB "u1" "lead@school.test" "Lea Der" 2026 "student"
        = (pairDB, true) ∧
     ∀ org_id r, membershipCount pairDB "u1" org_id = 1 →
       join_organization pairDB "u1" org_id r = (pairDB, false)) :=
  ⟨by decide,
   C9_create_user_profile_existing_success pairDB "u1" "lead@school.test"
     "Lea Der" 2026 "student" (by decide)⟩

/-- C4: a role change submitted from the admin panel is denied exactly when
the selected user is the acting admin and the new role is not "admin"; in
the denied case no database update is issued, and in every other case the
change is forwarded to `update_user_role`. -/
theorem C4_role_change_policy (db : DB)
    (current_user_id user_to_change_id new_role : String) :
    ((handle_update_role db current_user_id user_to_change_id new_role).denied = true
       ↔ user_to_change_id = current_user_id ∧ new_role ≠ "admin") ∧
    (user_to_change_id = current_user_id ∧ new_role ≠ "admin" →
       handle_update_role db current_user_id user_to_change_id new_role
         = { db := db, denied := true, db_update_issued := false,
             update_ok := false }) ∧
    (¬ (user_to_change_id = current_user_id ∧ new_role ≠ "admin") →
       handle_update_role db current_user_id user_to_change_id new_role
         = { db := (update_user_role db user_to_change_id new_role).1,
             denied := false, db_update_issued := true,
             update_ok := (update_user_role db user_to_change_id new_role).2 }) := by
  have hb : (user_to_change_id == current_user_id && new_role != "admin") = true
      ↔ (user_to_change_id = current_user_id ∧ new_role ≠ "admin") := by
    simp
  by_cases hc : user_to_change_id = current_user_id ∧ new_role ≠ "admin"
  · have ht := hb.mpr hc
    simp [handle_update_role, ht, hc]
  · have hf : (user_to_change_id == current_user_id && new_role != "admin") = false := by
      cases hcond : (user_to_change_id == current_user_id && new_role != "admin") with
      | true => exact absurd (hb.mp hcond) hc
      | false => rfl
    simp [handle_update_role, hf, hc]

/-- Witness for C4: the self-demotion attempt of admin "u1" to "student" is
denied with no database update. -/
theorem C4_role_change_policy_witness :
    handle_update_role pairDB "u1" "u1" "student"
      = { db := pairDB, denied := true, db_update_issued := false,
          update_ok := false } :=
  (C4_role_change_policy pairDB "u1" "u1" "student").2.1 ⟨rfl, by decide⟩

/-- C7: for every role value, including strings outside the enum and the
absent case, the admin panel is granted only to "admin" and the organization
edit affordance is enabled only for "admin", "faculty" or "club_leader";
both checks are total functions, so no value can crash them. -/
theorem C7_unrecognized_roles_no_privileges (role : Option String) :
    (canAccessAdminPanel role = true ↔ role = some "admin") ∧
    (is_admin_or_leader role = true ↔
       role = some "admin" ∨ role = some "faculty" ∨ role = some "club_leader") := by
  constructor
  · simp [canAccessAdminPanel]
  · simp [is_admin_or_leader]

/-- C8: for every stored organization whose category is outside the fixed
enum, the admin edit form's category dropdown falls back to index 0 and the
directory card still renders, displaying the stored category in its
caption. -/
theorem C8_out_of_enum_category_graceful (org : OrgRow)
    (h : org.category ∉ org_categories) :
    edit_category_index org.category = 0 ∧
    render_card org =
      { title := org.name,
        category_caption := "Category: **" ++ org.category ++ "**",
        verified_badge := org.is_verified,
        description_snippet := org.description.data.take 100 } := by
  refine ⟨?_, rfl⟩
  unfold edit_category_index
  rw [if_neg]
  simpa using h

/-- Witness for C8 at a concrete organization stored with category
"Bogus". -/
theorem C8_out_of_enum_category_graceful_witness :
    orgWeird.category ∉ org_categories ∧
    (edit_category_index orgWeird.category = 0 ∧
     render_card orgWeird =
       { title := orgWeird.name,
         category_caption := "Category: **" ++ orgWeird.category ++ "**",
         verified_badge := orgWeird.is_verified,
         description_snippet := orgWeird.description.data.take 100 }) :=
  ⟨by decide, C8_out_of_enum_category_graceful orgWeird (by decide)⟩

/-- C10: every path through the sign-up form handler either leaves the user
collection unchanged (validation or auth failure) or appends exactly one
profile row whose role is "student" — the form passes no role argument, so
the default of `sign_up` applies and a fresh account never holds elevated
privileges. -/
theorem C10_signup_creates_student (db : DB) (auth_user_id : Option String)
    (new_email new_password confirm_password full_name : String)
    (grad_year : Int) :
    (signup_form_handler db auth_user_id new_email new_password
        confirm_password full_name grad_year).1.users = db.users ∨
    ∃ uid, auth_user_id = some uid ∧
      (signup_form_handler db auth_user_id new_email new_password
          confirm_password full_name grad_year).1.users
        = db.users ++
          [{ id := uid, email := new_email, full_name := full_name,
             grad_year := some grad_year, role := "student" }] := by
  unfold signup_form_handler sign_up
  split
  · left; rfl
  · split
    · left; rfl
    · cases auth_user_id with
      | none => left; rfl
      | some uid =>
          dsimp only
          split
          · left; rfl
          · right; exact ⟨uid, rfl, rfl⟩

/-- C2: evaluation of `get_memberships_for_org` on an organization with one
leader and one member.  The rows are flattened (membership role and user
identity fields at top level), but the `.order("role", desc=True)` sort puts
the member row first, because "member" is lexicographically greater than
"leader" — even though the code's own comment says the ordering is there "to
put leaders first". -/
theorem C2_roster_member_sorts_first :
    get_memberships_for_org rosterDB "o1" =
      [ { membership_role := "member", user_id := "u2", full_name := "Mem Ber",
          email := "mem@school.test", grad_year := some 2027 },
        { membership_role := "leader", user_id := "u1", full_name := "Lea Der",
          email := "lead@school.test", grad_year := some 2026 } ] := by
  decide

lemma flattenEvent_start_time (db : DB) (e : EventRow) :
    (flattenEvent db e).start_time = e.start_time := by
  unfold flattenEvent
  split <;> rfl

lemma flattenEvent_is_public (db : DB) (e : EventRow) :
    (flattenEvent db e).is_public = e.is_public := by
  unfold flattenEvent
  split <;> rfl

/-- C5: `get_all_events` without private events returns only rows built from
public events, omits no public event, has exactly as many rows as there are
public events (private rows are absent, not redacted), is ordered by start
time ascending, and on the {public, private, public} fixture returns exactly
the two public rows in ascending start-time order. -/
theorem C5_public_event_listing (db : DB) :
    (∀ r ∈ get_all_events db false, r.is_public = true) ∧
    (∀ e ∈ db.events, e.is_public = true →
       flattenEvent db e ∈ get_all_events db false) ∧
    (get_all_events db false).length
      = (db.events.filter (fun e => e.is_public)).length ∧
    (get_all_events db false).Pairwise (fun a b => a.start_time ≤ b.start_time) ∧
    get_all_events eventsDB false
      = [flattenEvent eventsDB ev1, flattenEvent eventsDB ev3] := by
  refine ⟨?_, ?_, ?_, ?_, by decide⟩
  · intro r hr
    unfold get_all_events at hr
    simp only [Bool.false_eq_true, if_false, List.mem_map] at hr
    obtain ⟨e, he, rfl⟩ := hr
    rw [List.mem_insertionSort] at he
    rw [flattenEvent_is_public]
    exact (List.mem_filter.mp he).2
  · intro e he hpub
    unfold get_all_events
    simp only [Bool.false_eq_true, if_false, List.mem_map]
    refine ⟨e, ?_, rfl⟩
    rw [List.mem_insertionSort, List.mem_filter]
    exact ⟨he, hpub⟩
  · unfold get_all_events
    simp only [Bool.false_eq_true, if_false, List.length_map]
    exact (List.perm_insertionSort eventLe _).length_eq
  · unfold get_all_events
    simp only [Bool.false_eq_true, if_false]
    rw [List.pairwise_map]
    refine (List.sorted_insertionSort eventLe _).imp ?_
    intro a b hab
    rw [flattenEvent_start_time, flattenEvent_start_time]
    exact hab

/-- Witness for C5: the first fixture event is returned and is public. -/
theorem C5_public_event_listing_witness :
    (flattenEvent eventsDB ev1).is_public = true :=
  (C5_public_event_listing eventsDB).1 (flattenEvent eventsDB ev1) (by decide)

/-- C6: the directory filter keeps exactly the organizations whose
lowercased name contains the lowercased query and whose category matches the
selection (all categories when "All"); on the fixture directory, query
"chess" with category "Academic" keeps exactly the first organization. -/
theorem C6_directory_filter_spec (org_data : List OrgRow)
    (raw_query selected_category : String) (org : OrgRow) :
    (org ∈ directory_filter org_data raw_query selected_category ↔
       org ∈ org_data ∧
       occursIn (lowerChars raw_query.data) (lowerChars org.name.data) = true ∧
       (selected_category = "All" ∨ org.category = selected_category)) ∧
    directory_filter [orgA, orgB] "chess" "Academic" = [orgA] := by
  refine ⟨?_, by decide⟩
  unfold directory_filter
  rw [List.mem_filter]
  simp only [Bool.and_eq_true, Bool.or_eq_true, beq_iff_eq]
  constructor
  · rintro ⟨hmem, hcat, hsub⟩
    exact ⟨hmem, hsub, by tauto⟩
  · rintro ⟨hmem, hsub, hcat⟩
    exact ⟨hmem, by tauto, hsub⟩

end Hub
